import Mathlib

/-!
# Verification of the HeyEdu backend scoring & feedback engine

Shallow embedding of `src/app.py` (the `POST /api/submit` handler
`submit_answers` and the Pydantic models it uses), together with theorems
settling the specification's claims about it.

Modelling conventions:
* Python `int` is `Int`; `Optional[T]` is `Option T`; `str` is `String`.
* The external collaborator (the OpenAI chat-completion call followed by
  `json.loads`) is modelled by a single parameter of type
  `Except Unit Json`: `Except.error ()` stands for "the API call or
  `json.loads` raised an exception" (everything the `try`/`except` block
  absorbs), and `Except.ok j` stands for "the call succeeded and the raw
  content parsed to the JSON value `j`".
* Raising `HTTPException(400, ...)` and an uncaught Python exception
  (which FastAPI surfaces as an HTTP 500 server error) are the two error
  outcomes of the handler, modelled by `SubmitError`.
* `feedback_json.get(key, "")` on a value that is not a `dict` raises
  `AttributeError` in Python (uncaught → 500); on a `dict` it returns the
  stored value or the default.  Pydantic validation of the `Feedback`
  fields (typed `str`) is modelled as succeeding exactly on strings; a
  non-string value is modelled as a validation failure (uncaught error).
  No claim exercises non-string dictionary values, so pydantic's
  version-dependent coercion behaviour there does not matter.
-/

/-- JSON values, as produced by Python's `json.loads`. -/
inductive Json where
  | null : Json
  | bool (b : Bool) : Json
  | num (n : Int) : Json
  | str (s : String) : Json
  | arr (elems : List Json) : Json
  | obj (members : List (String × Json)) : Json

/-- One submitted answer (Pydantic model `AnswerItem`, `src/app.py` lines
65–72): question id, the student's selection (null = unanswered), the
correct answer index, and optional tags. -/
structure AnswerItem where
  question_id : Int
  selected : Option Int
  correct_answer : Int
  area : Option String := none
  qtype : Option String := none
  difficulty : Option String := none
deriving DecidableEq

/-- The feedback report (Pydantic model `Feedback`, lines 79–84): four
mandatory string fields.  All four are total `String`s, so a returned
report always has them present and non-null. -/
structure Feedback where
  summary : String
  strengths : String
  weaknesses : String
  suggestions : String
deriving DecidableEq

/-- The response body (Pydantic model `SubmitResponse`, lines 86–89). -/
structure SubmitResponse where
  score : Int
  total : Int
  feedback : Feedback
deriving DecidableEq

/-- Failure outcomes of the handler: a raised `HTTPException` with a
status code and detail message, or an uncaught Python exception (which
the framework surfaces as an HTTP 500 server error). -/
inductive SubmitError where
  | httpException (status : Nat) (detail : String) : SubmitError
  | uncaught : SubmitError
deriving DecidableEq

/-- Line 138: `is_correct = ans.selected is not None and ans.selected ==
ans.correct_answer`. -/
def is_correct (ans : AnswerItem) : Bool :=
  match ans.selected with
  | none => false
  | some s => s == ans.correct_answer

/-- One element of `rows_for_llm` (lines 142–153). -/
structure Row where
  no : Nat
  question_id : Int
  selected : Option Int
  correct : Int
  is_correct : Bool
  area : Option String
  qtype : Option String
  difficulty : Option String
deriving DecidableEq

/-- The dictionary appended for one answer (lines 142–153). -/
def mk_row (idx : Nat) (ans : AnswerItem) : Row :=
  { no := idx
    question_id := ans.question_id
    selected := ans.selected
    correct := ans.correct_answer
    is_correct := is_correct ans
    area := ans.area
    qtype := ans.qtype
    difficulty := ans.difficulty }

/-- `enumerate(payload.answers, start=idx)` mapped through `mk_row`
(the loop of lines 137–153). -/
def rows_from : Nat → List AnswerItem → List Row
  | _, [] => []
  | idx, ans :: rest => mk_row idx ans :: rows_from (idx + 1) rest

/-- `rows_for_llm` as built by the loop at lines 137–153 (`start=1`). -/
def rows_for_llm (answers : List AnswerItem) : List Row :=
  rows_from 1 answers

/-- Python `str()` of an `Optional[int]` inside an f-string: `None` for an
absent value, decimal representation otherwise. -/
def py_str_opt_int : Option Int → String
  | none => "None"
  | some n => toString n

/-- Python `str()` of an `Optional[str]` inside an f-string. -/
def py_str_opt : Option String → String
  | none => "None"
  | some s => s

/-- The per-item summary line (lines 161–164). -/
def row_line (r : Row) : String :=
  toString r.no ++ "번 | 영역: " ++ py_str_opt r.area ++ " | 유형: " ++
    py_str_opt r.qtype ++ " | 난이도: " ++ py_str_opt r.difficulty ++
    " | 선택: " ++ py_str_opt_int r.selected ++ " | 정답: " ++
    toString r.correct ++ " | " ++ (if r.is_correct then "정답" else "오답")

/-- `answers_text = "\n".join(answers_text_lines)` (lines 159–167). -/
def answers_text (answers : List AnswerItem) : String :=
  String.intercalate "\n" ((rows_for_llm answers).map row_line)

/-- The system prompt (lines 169–186): a fixed string constant,
independent of the submission. -/
def system_prompt : String :=
  "너는 중학생 영어 학습 진단을 돕는 교사야. " ++
  "아래에 주어지는 학생의 문제 풀이 결과(각 문항의 영역/유형/난이도와 정답 여부)를 보고 " ++
  "학생의 현재 영어 학습 수준을 분석하고, 구체적인 피드백을 JSON 형식으로 작성해줘.\n\n" ++
  "JSON 키는 반드시 다음 네 개만 사용해:\n" ++
  "1) summary: 전체적인 한 줄 요약 (한국어)\n" ++
  "2) strengths: 잘하고 있는 점 (한국어, 2~3문장)\n" ++
  "3) weaknesses: 부족한 점과 오답 경향 (한국어, 2~3문장)\n" ++
  "4) suggestions: 앞으로의 학습 방향과 구체적인 추천 활동 (한국어, 3~4문장)\n\n" ++
  "JSON 형식 예시는 다음과 같아.\n" ++
  "\x7b\n" ++
  "  \"summary\": \"...\",\n" ++
  "  \"strengths\": \"...\",\n" ++
  "  \"weaknesses\": \"...\",\n" ++
  "  \"suggestions\": \"...\"\n" ++
  "\x7d\n" ++
  "반드시 위와 같은 JSON만 출력하고, 다른 설명 문장은 출력하지 마."

/-- The user prompt (lines 188–193), rendered from `total`,
`correct_count` and `answers_text` exactly as the f-strings do. -/
def user_prompt (answers : List AnswerItem) : String :=
  "총 문항 수: " ++ toString answers.length ++ "개, 맞힌 개수: " ++
    toString (answers.countP is_correct) ++ "개입니다.\n" ++
  "문항별 상세 결과는 아래와 같습니다.\n\n" ++
  answers_text answers ++ "\n\n" ++
  "이 정보를 바탕으로 위에서 제시한 JSON 형식의 피드백을 작성해줘."

/-- The fallback dictionary assigned in the `except` branch
(lines 208–213), verbatim. -/
def fallback_json : List (String × Json) :=
  [("summary", Json.str "AI 피드백 생성 중 오류가 발생했습니다. 기본 피드백을 제공합니다."),
   ("strengths", Json.str "정답률과 응답 패턴을 기반으로 대략적인 실력을 추정할 수 있습니다."),
   ("weaknesses", Json.str "어떤 문항에서 오답이 발생했는지 다시 확인해 보세요."),
   ("suggestions", Json.str "세부적인 피드백을 위해 나중에 다시 시도해 보거나, 교사와 함께 풀이를 점검해 보세요.")]

/-- The fallback report as a `Feedback` value: the four fallback strings
verbatim. -/
def fallback_feedback : Feedback :=
  { summary := "AI 피드백 생성 중 오류가 발생했습니다. 기본 피드백을 제공합니다."
    strengths := "정답률과 응답 패턴을 기반으로 대략적인 실력을 추정할 수 있습니다."
    weaknesses := "어떤 문항에서 오답이 발생했는지 다시 확인해 보세요."
    suggestions := "세부적인 피드백을 위해 나중에 다시 시도해 보거나, 교사와 함께 풀이를 점검해 보세요." }

/-- Python `dict` lookup on a dictionary built by `json.loads` from a JSON
object: on duplicate keys the last occurrence wins. -/
def dict_get (kvs : List (String × Json)) (k : String) : Option Json :=
  (kvs.reverse.find? (fun p => p.1 == k)).map (fun p => p.2)

/-- `feedback_json.get(key, "")` followed by pydantic validation of the
`str` field: a missing key yields the default `""`; a string value is
taken verbatim; a non-string value fails validation (`none`). -/
def get_strD (kvs : List (String × Json)) (k : String) : Option String :=
  match dict_get kvs k with
  | none => some ""
  | some (Json.str s) => some s
  | some _ => none

/-- Lines 215–220: building `Feedback` from `feedback_json`.  Calling
`.get` on a non-dict value raises `AttributeError` (uncaught), and a
non-string field value fails pydantic validation (uncaught). -/
def build_feedback (j : Json) : Except SubmitError Feedback :=
  match j with
  | Json.obj kvs =>
    match get_strD kvs "summary", get_strD kvs "strengths",
          get_strD kvs "weaknesses", get_strD kvs "suggestions" with
    | some su, some st, some we, some sg =>
      Except.ok { summary := su, strengths := st, weaknesses := we, suggestions := sg }
    | _, _, _, _ => Except.error SubmitError.uncaught
  | _ => Except.error SubmitError.uncaught

/-- The `POST /api/submit` handler `submit_answers` (lines 123–226).
`llm` is the collaborator outcome (see the module docstring):
`Except.error ()` when the API call or `json.loads` raised (the
`try`/`except` replaces the parsed value by the fallback dictionary),
`Except.ok j` when the content parsed to the JSON value `j`. -/
def submit_answers (answers : List AnswerItem) (llm : Except Unit Json) :
    Except SubmitError SubmitResponse :=
  if answers.isEmpty then
    Except.error (SubmitError.httpException 400 "answers가 비어 있습니다.")
  else
    let total := answers.length
    let correct_count := answers.countP is_correct
    let feedback_json : Json :=
      match llm with
      | Except.ok j => j
      | Except.error _ => Json.obj fallback_json
    match build_feedback feedback_json with
    | Except.ok fb =>
      Except.ok { score := (correct_count : Int), total := (total : Int), feedback := fb }
    | Except.error e => Except.error e

/-- The four keys required of the collaborator's structured output. -/
def required_keys : List String :=
  ["summary", "strengths", "weaknesses", "suggestions"]

/-- A value stored under a required key is acceptable when it is absent
(the default `""` applies) or a string. -/
def val_ok : Option Json → Bool
  | none => true
  | some (Json.str _) => true
  | some _ => false

/-- The collaborator output is a JSON object whose values at the required
keys, when present, are strings (the schema the prompt demands). -/
def schema_ok (kvs : List (String × Json)) : Prop :=
  ∀ k ∈ required_keys, val_ok (dict_get kvs k) = true

instance schema_ok_decidable (kvs : List (String × Json)) : Decidable (schema_ok kvs) :=
  inferInstanceAs (Decidable (∀ k ∈ required_keys, val_ok (dict_get kvs k) = true))

/-- A benign collaborator outcome: the call raised (absorbed by the
`try`/`except`), or it returned a JSON object whose present required keys
hold strings (possibly with keys missing). -/
def collab_benign (llm : Except Unit Json) : Prop :=
  llm = Except.error () ∨
    ∃ kvs, llm = Except.ok (Json.obj kvs) ∧ schema_ok kvs

/-- Modelled from the spec: the `ScoreSummary` aggregate of §3 — total
count, correct count, wrong count (= total − correct) and accuracy
percentage (= 100 × correct / total), kept exact (rational, unrounded)
during aggregation.  No `ScoreSummary` value appears in `src/app.py`
(the response carries only `score` and `total`); the spec attributes it
to a response variant of the repository not present under `src/`, so its
definition follows the spec's words. -/
structure ScoreSummary where
  total : Nat
  correct : Nat
  wrong : Nat
  accuracy : ℚ
deriving DecidableEq

/-- Modelled from the spec: derivation of the `ScoreSummary` from a
submission, using the code's correctness predicate. -/
def mkScoreSummary (answers : List AnswerItem) : ScoreSummary :=
  let t := answers.length
  let c := answers.countP is_correct
  { total := t
    correct := c
    wrong := t - c
    accuracy := 100 * (c : ℚ) / (t : ℚ) }

/-- The returned report field `v` reflects the collaborator's value under
key `k` verbatim: a present string is copied unchanged, an absent key
yields the empty string. -/
def maps_verbatim (kvs : List (String × Json)) (k : String) (v : String) : Prop :=
  (∀ s, dict_get kvs k = some (Json.str s) → v = s) ∧
  (dict_get kvs k = none → v = "")

/-- The spec's worked example: 3 answers, selections `[1, 2, null]`,
correct answers `[1, 3, 2]` (one-based). -/
def example_answers : List AnswerItem :=
  [{ question_id := 101, selected := some 1, correct_answer := 1 },
   { question_id := 102, selected := some 2, correct_answer := 3 },
   { question_id := 103, selected := none, correct_answer := 2 }]

/-- The response the handler produces for `example_answers` when the
collaborator call fails. -/
def example_response : SubmitResponse :=
  { score := 1, total := 3, feedback := fallback_feedback }

/-- A structured collaborator output with two of the four required keys
present (and two missing). -/
def example_kvs : List (String × Json) :=
  [("summary", Json.str "전반적으로 양호합니다."),
   ("strengths", Json.str "독해가 강점입니다.")]

/-! ## Helper lemmas -/

/-- Unfolding the handler on a non-empty list: the 400 guard is passed and
the result is determined by `build_feedback` on the effective feedback
JSON. -/
theorem submit_cons (a : AnswerItem) (as : List AnswerItem) (llm : Except Unit Json) :
    submit_answers (a :: as) llm =
      match build_feedback
          (match llm with
           | Except.ok j => j
           | Except.error _ => Json.obj fallback_json) with
      | Except.ok fb =>
        Except.ok { score := (((a :: as).countP is_correct : Nat) : Int),
                    total := (((a :: as).length : Nat) : Int), feedback := fb }
      | Except.error e => Except.error e := rfl

/-- On a non-empty list with a failed collaborator call, the handler
returns the score and the fallback report. -/
theorem submit_err_eq (a : AnswerItem) (as : List AnswerItem) :
    submit_answers (a :: as) (Except.error ()) =
      Except.ok { score := (((a :: as).countP is_correct : Nat) : Int),
                  total := (((a :: as).length : Nat) : Int),
                  feedback := fallback_feedback } := rfl

/-- Inversion: a successful response forces a non-empty submission and
fixes `score` and `total`. -/
theorem submit_ok_inv {answers : List AnswerItem} {llm : Except Unit Json}
    {resp : SubmitResponse} (h : submit_answers answers llm = Except.ok resp) :
    answers ≠ [] ∧ resp.score = (answers.countP is_correct : Int) ∧
      resp.total = (answers.length : Int) := by
  cases answers with
  | nil => exact absurd h (by simp [submit_answers])
  | cons a as =>
    refine ⟨by simp, ?_⟩
    rw [submit_cons] at h
    split at h
    · cases h
      exact ⟨rfl, rfl⟩
    · cases h

/-- Under `schema_ok`, extraction of a required key succeeds and reflects
the stored value verbatim (default `""` when absent). -/
theorem get_strD_verbatim {kvs : List (String × Json)} {k : String}
    (h : val_ok (dict_get kvs k) = true) :
    ∃ s, get_strD kvs k = some s ∧ maps_verbatim kvs k s := by
  cases hv : dict_get kvs k with
  | none =>
    refine ⟨"", ?_, ?_, fun _ => rfl⟩
    · simp [get_strD, hv]
    · intro s hs
      rw [hv] at hs
      cases hs
  | some j =>
    rw [hv] at h
    cases j with
    | str s =>
      refine ⟨s, by simp [get_strD, hv], ?_, ?_⟩
      · intro t ht
        rw [hv] at ht
        cases ht
        rfl
      · intro hn
        rw [hv] at hn
        cases hn
    | null => simp [val_ok] at h
    | bool b => simp [val_ok] at h
    | num n => simp [val_ok] at h
    | arr elems => simp [val_ok] at h
    | obj members => simp [val_ok] at h

/-- Under `schema_ok`, building the `Feedback` model from a JSON object
succeeds and every field reflects its key verbatim. -/
theorem build_feedback_obj {kvs : List (String × Json)} (h : schema_ok kvs) :
    ∃ fb, build_feedback (Json.obj kvs) = Except.ok fb ∧
      maps_verbatim kvs "summary" fb.summary ∧
      maps_verbatim kvs "strengths" fb.strengths ∧
      maps_verbatim kvs "weaknesses" fb.weaknesses ∧
      maps_verbatim kvs "suggestions" fb.suggestions := by
  obtain ⟨su, hsu, hmsu⟩ := get_strD_verbatim (h "summary" (by simp [required_keys]))
  obtain ⟨st, hst, hmst⟩ := get_strD_verbatim (h "strengths" (by simp [required_keys]))
  obtain ⟨we, hwe, hmwe⟩ := get_strD_verbatim (h "weaknesses" (by simp [required_keys]))
  obtain ⟨sg, hsg, hmsg⟩ := get_strD_verbatim (h "suggestions" (by simp [required_keys]))
  refine ⟨{ summary := su, strengths := st, weaknesses := we, suggestions := sg },
    ?_, hmsu, hmst, hmwe, hmsg⟩
  simp only [build_feedback, hsu, hst, hwe, hsg]

/-- `rows_for_llm` preserves the number of items, whatever the start
index. -/
theorem rows_from_length (i : Nat) (l : List AnswerItem) :
    (rows_from i l).length = l.length := by
  induction l generalizing i with
  | nil => rfl
  | cons a as ih => simp [rows_from, ih]

/-- The number of rows flagged correct equals the handler's
`correct_count`. -/
theorem rows_from_countP (i : Nat) (l : List AnswerItem) :
    (rows_from i l).countP (fun r => r.is_correct) = l.countP is_correct := by
  induction l generalizing i with
  | nil => rfl
  | cons a as ih => simp [rows_from, List.countP_cons, ih, mk_row]

/-! ## Claims -/

/-- C1: for every non-empty submitted answer list, the response's `score`
equals the number of items judged correct and its `total` equals the
length of the list, with `0 ≤ score ≤ total`; in particular, for the
spec's 3-answer example with selections `[1, 2, null]` and correct
answers `[1, 3, 2]`, the per-item correctness is `[true, false, false]`,
`score = 1` and `total = 3`. -/
theorem claim_C1 :
    (∀ (answers : List AnswerItem) (llm : Except Unit Json) (resp : SubmitResponse),
        submit_answers answers llm = Except.ok resp →
        resp.score = (answers.countP is_correct : Int) ∧
        resp.total = (answers.length : Int) ∧
        0 ≤ resp.score ∧ resp.score ≤ resp.total) ∧
    (example_answers.map is_correct = [true, false, false] ∧
      submit_answers example_answers (Except.error ()) = Except.ok example_response ∧
      example_response.score = 1 ∧ example_response.total = 3) := by
  refine ⟨?_, by decide, rfl, rfl, rfl⟩
  intro answers llm resp h
  obtain ⟨-, hs, ht⟩ := submit_ok_inv h
  refine ⟨hs, ht, ?_, ?_⟩
  · rw [hs]
    exact_mod_cast Nat.zero_le _
  · rw [hs, ht]
    exact_mod_cast List.countP_le_length is_correct

/-- Concrete instance of C1's universally quantified part on the spec's
example submission. -/
theorem claim_C1_witness :
    example_response.score = (example_answers.countP is_correct : Int) ∧
    example_response.total = (example_answers.length : Int) ∧
    0 ≤ example_response.score ∧ example_response.score ≤ example_response.total :=
  claim_C1.1 example_answers (Except.error ()) example_response rfl

/-- C2: submitting an empty answer list always fails with HTTP 400
(`HTTPException` from the guard at line 128), whatever the collaborator
would have done; no score is ever computed for it. -/
theorem claim_C2 (llm : Except Unit Json) :
    submit_answers [] llm =
      Except.error (SubmitError.httpException 400 "answers가 비어 있습니다.") := rfl

/-- C3: per-item correctness is true exactly when a selection is present
and equals the item's correct answer; an absent (null) selection is
always judged incorrect (`is_correct` is a total function — evaluating it
never raises). -/
theorem claim_C3 (ans : AnswerItem) :
    (is_correct ans = true ↔
      ∃ s, ans.selected = some s ∧ s = ans.correct_answer) ∧
    (ans.selected = none → is_correct ans = false) := by
  constructor
  · cases hs : ans.selected with
    | none => simp [is_correct, hs]
    | some s => simp [is_correct, hs]
  · intro h
    simp [is_correct, h]

/-- Concrete instance of C3: an unanswered item is judged incorrect. -/
theorem claim_C3_witness :
    is_correct { question_id := 103, selected := none, correct_answer := 2 } = false :=
  (claim_C3 _).2 rfl

/-- C4: for every non-empty submission and every collaborator outcome —
a failed call, or structured output with the required keys present or
missing — the handler returns a response; its `feedback` is a `Feedback`
value, whose four fields are total `String`s, hence present and non-null
(possibly empty). -/
theorem claim_C4 (answers : List AnswerItem) (llm : Except Unit Json)
    (hne : answers ≠ []) (hb : collab_benign llm) :
    ∃ resp, submit_answers answers llm = Except.ok resp := by
  obtain ⟨a, as, rfl⟩ := List.exists_cons_of_ne_nil hne
  rcases hb with rfl | ⟨kvs, rfl, hs⟩
  · exact ⟨_, submit_err_eq a as⟩
  · obtain ⟨fb, hfb, -⟩ := build_feedback_obj hs
    refine ⟨{ score := (((a :: as).countP is_correct : Nat) : Int),
              total := (((a :: as).length : Nat) : Int), feedback := fb }, ?_⟩
    rw [submit_cons, hfb]

/-- Concrete instance of C4: the example submission with a structured
output missing two of the four keys still gets a complete response. -/
theorem claim_C4_witness :
    ∃ resp, submit_answers example_answers (Except.ok (Json.obj example_kvs)) =
      Except.ok resp :=
  claim_C4 example_answers (Except.ok (Json.obj example_kvs)) (by decide)
    (Or.inr ⟨example_kvs, rfl, by decide⟩)

/-- C5: if the collaborator call raises (or times out), the returned
report equals the fixed fallback report verbatim, while `score` and
`total` are still computed from the submitted answers exactly as in the
success case. -/
theorem claim_C5 (answers : List AnswerItem) (hne : answers ≠ []) :
    submit_answers answers (Except.error ()) =
      Except.ok { score := (answers.countP is_correct : Int),
                  total := (answers.length : Int),
                  feedback := fallback_feedback } ∧
    (∀ (llm : Except Unit Json) (resp : SubmitResponse),
      submit_answers answers llm = Except.ok resp →
      resp.score = (answers.countP is_correct : Int) ∧
      resp.total = (answers.length : Int)) := by
  obtain ⟨a, as, rfl⟩ := List.exists_cons_of_ne_nil hne
  refine ⟨submit_err_eq a as, ?_⟩
  intro llm resp h
  exact (submit_ok_inv h).2

/-- Concrete instance of C5 on the spec's example submission. -/
theorem claim_C5_witness :
    submit_answers example_answers (Except.error ()) =
      Except.ok { score := (example_answers.countP is_correct : Int),
                  total := (example_answers.length : Int),
                  feedback := fallback_feedback } :=
  (claim_C5 example_answers (by decide)).1

/-- C6 counterexample: collaborator output that parses as valid JSON but
is not an object (here the number `7`) is a schema-validation failure
that is NOT absorbed: `feedback_json.get` raises `AttributeError`, an
uncaught error surfaced at the HTTP boundary as a server error, so the
request does not complete with a score-plus-feedback response. -/
theorem claim_C6_counterexample :
    submit_answers example_answers (Except.ok (Json.num 7)) =
      Except.error SubmitError.uncaught := rfl

/-- C6 (amended): a collaborator call that raises — including transport
failure, timeout, and output that fails JSON parsing — is absorbed
locally into the fallback report and the request completes normally;
however, output that parses as JSON but is not a JSON object is not
absorbed: it causes an uncaught error surfaced as a server error. -/
theorem claim_C6 (answers : List AnswerItem) (hne : answers ≠ []) :
    (∃ resp, submit_answers answers (Except.error ()) = Except.ok resp ∧
       resp.feedback = fallback_feedback) ∧
    (∀ n : Int, submit_answers answers (Except.ok (Json.num n)) =
       Except.error SubmitError.uncaught) := by
  obtain ⟨a, as, rfl⟩ := List.exists_cons_of_ne_nil hne
  constructor
  · exact ⟨_, submit_err_eq a as, rfl⟩
  · intro n
    rw [submit_cons]
    rfl

/-- Concrete instance of C6 (amended) on the spec's example submission. -/
theorem claim_C6_witness :
    ∃ resp, submit_answers example_answers (Except.error ()) = Except.ok resp ∧
      resp.feedback = fallback_feedback :=
  (claim_C6 example_answers (by decide)).1

/-- C7: for collaborator output that parses as a structured payload (a
JSON object whose present required keys hold strings), each required key
that is present maps verbatim into the corresponding report field, and
each missing key yields an empty string instead of failing the
response. -/
theorem claim_C7 (answers : List AnswerItem) (kvs : List (String × Json))
    (hne : answers ≠ []) (hs : schema_ok kvs) :
    ∃ resp, submit_answers answers (Except.ok (Json.obj kvs)) = Except.ok resp ∧
      maps_verbatim kvs "summary" resp.feedback.summary ∧
      maps_verbatim kvs "strengths" resp.feedback.strengths ∧
      maps_verbatim kvs "weaknesses" resp.feedback.weaknesses ∧
      maps_verbatim kvs "suggestions" resp.feedback.suggestions := by
  obtain ⟨a, as, rfl⟩ := List.exists_cons_of_ne_nil hne
  obtain ⟨fb, hfb, h1, h2, h3, h4⟩ := build_feedback_obj hs
  refine ⟨{ score := (((a :: as).countP is_correct : Nat) : Int),
            total := (((a :: as).length : Nat) : Int), feedback := fb },
    ?_, h1, h2, h3, h4⟩
  rw [submit_cons, hfb]

/-- Concrete instance of C7: two keys present (copied verbatim), two keys
missing (defaulted to `""`). -/
theorem claim_C7_witness :
    ∃ resp, submit_answers example_answers (Except.ok (Json.obj example_kvs)) =
        Except.ok resp ∧
      maps_verbatim example_kvs "summary" resp.feedback.summary ∧
      maps_verbatim example_kvs "strengths" resp.feedback.strengths ∧
      maps_verbatim example_kvs "weaknesses" resp.feedback.weaknesses ∧
      maps_verbatim example_kvs "suggestions" resp.feedback.suggestions :=
  claim_C7 example_answers example_kvs (by decide) (by decide)

/-- C8: prompt construction is deterministic.  The instruction prompt is
a closed constant (`system_prompt` takes no input at all), and the user
prompt is a pure function of the per-item row sequence — which also
determines the score summary (`total` is the number of rows and
`correct_count` the number of rows flagged correct) — so two calls with
identical item data produce byte-identical prompt strings; no clock,
randomness or any other input occurs in their construction. -/
theorem claim_C8 (a1 a2 : List AnswerItem) (h : rows_for_llm a1 = rows_for_llm a2) :
    system_prompt = system_prompt ∧ user_prompt a1 = user_prompt a2 := by
  have hlen : a1.length = a2.length := by
    have h' := congrArg List.length h
    simpa only [rows_for_llm, rows_from_length] using h'
  have hcnt : a1.countP is_correct = a2.countP is_correct := by
    have h' := congrArg (List.countP (fun r => r.is_correct)) h
    simpa only [rows_for_llm, rows_from_countP] using h'
  have htext : answers_text a1 = answers_text a2 := by
    unfold answers_text
    rw [h]
  refine ⟨rfl, ?_⟩
  unfold user_prompt
  rw [hlen, hcnt, htext]

/-- Concrete instance of C8 on the spec's example submission. -/
theorem claim_C8_witness :
    system_prompt = system_prompt ∧
    user_prompt example_answers = user_prompt example_answers :=
  claim_C8 example_answers example_answers rfl

/-- C9 (spec-modelled `ScoreSummary`): for every submission the handler
accepts, the derived score summary's accuracy equals exactly
`100 × score / total` (as an exact rational, unrounded), where `score`
and `total` are the fields of the returned response; `total` is positive
there. -/
theorem claim_C9 (answers : List AnswerItem) (llm : Except Unit Json)
    (resp : SubmitResponse) (h : submit_answers answers llm = Except.ok resp) :
    0 < resp.total ∧
    (mkScoreSummary answers).accuracy =
      100 * (resp.score : ℚ) / (resp.total : ℚ) := by
  obtain ⟨hne, hs, ht⟩ := submit_ok_inv h
  constructor
  · rw [ht]
    exact_mod_cast List.length_pos.mpr hne
  · rw [hs, ht]
    simp only [mkScoreSummary]
    push_cast
    ring

/-- Concrete instance of C9: the example response has accuracy
`100 × 1 / 3`. -/
theorem claim_C9_witness :
    0 < example_response.total ∧
    (mkScoreSummary example_answers).accuracy =
      100 * (example_response.score : ℚ) / (example_response.total : ℚ) :=
  claim_C9 example_answers (Except.error ()) example_response rfl

/-- C10 (implicit): correctness is plain equality with no encoding offset
and no range validation — any integer selection (also 0, 7, or negative)
is judged correct exactly when it equals the item's `correct_answer`, and
a submission containing out-of-range selections is never rejected or
normalized (the handler still answers). -/
theorem claim_C10 :
    (∀ ans : AnswerItem,
      is_correct ans = true ↔ ans.selected = some ans.correct_answer) ∧
    (∀ answers : List AnswerItem, answers ≠ [] →
      (submit_answers answers (Except.error ())).isOk = true) := by
  constructor
  · intro ans
    cases hs : ans.selected with
    | none => simp [is_correct, hs]
    | some s => simp [is_correct, hs]
  · intro answers hne
    obtain ⟨a, as, rfl⟩ := List.exists_cons_of_ne_nil hne
    rw [submit_err_eq]
    rfl

/-- Concrete instance of C10: the out-of-range selection `0` is accepted
and judged correct against a stored correct answer `0`, and a submission
whose only selection is the out-of-range `7` (against `-3`) is still
scored. -/
theorem claim_C10_witness :
    (is_correct { question_id := 1, selected := some 0, correct_answer := 0 } = true) ∧
    (submit_answers [{ question_id := 2, selected := some 7, correct_answer := -3 }]
        (Except.error ())).isOk = true :=
  ⟨(claim_C10.1 _).mpr rfl, claim_C10.2 _ (by decide)⟩
